import Mathlib

/-!
Shallow embedding of the argocd-vee reconciliation core.

The definitions below are translated from the Go sources:
  * `src/unnamed/part_000` (service reconcilers and `ensureAutoTLSAnnotation`),
  * `src/controllers/argocd/redis/configmap.go`,
  * `src/controllers/argocd/applicationset/applicationset.go`,
  * `src/pkg/common/defaults.go` (the `permissions` part).
Store state is passed explicitly; every store write is recorded in an
action log so that theorems can speak about which writes a pass issues.
Code of the repository that is not part of the given sources (helper
packages such as `util`, `workloads`, `cluster`, and a few constants) is
modelled from the spec and marked as such in its doc comment.
-/

namespace ArgoCDVee

/-- Association list standing for a Go `map[string]string`. -/
abbrev AList := List (String × String)

/-- Lookup of a key, mirroring `v, ok := m[k]`. -/
def lookupA : AList → String → Option String
  | [], _ => none
  | (k2, v) :: rest, k => if k2 = k then some v else lookupA rest k

/-- Insertion/replacement, mirroring `m[k] = v`. -/
def insertA : AList → String → String → AList
  | [], k, v => [(k, v)]
  | (k2, v2) :: rest, k, v =>
      if k2 = k then (k, v) :: rest else (k2, v2) :: insertA rest k v

/-- Key removal, mirroring `delete(m, k)`. -/
def eraseA : AList → String → AList
  | [], _ => []
  | (k2, v2) :: rest, k =>
      if k2 = k then eraseA rest k else (k2, v2) :: eraseA rest k

/-- `common.ServiceBetaOpenshiftKeyCertSecret`: the auto-TLS annotation key
(value as spelled out in `src/controllers/argocd/service.go`). -/
def ServiceBetaOpenshiftKeyCertSecret : String :=
  "service.beta.openshift.io/serving-cert-secret-name"

/-- Modelled from the spec: `common.ServiceAlphaK8sKeyTolerateUnreadyEndpoints`
is not under `src/`; it is the tolerate-unready-endpoints annotation key.
Its exact value decides no claim. -/
def ServiceAlphaK8sKeyTolerateUnreadyEndpoints : String :=
  "service.alpha.kubernetes.io/tolerate-unready-endpoints"

/-- Modelled from the spec: `common.AppK8sKeyName` (label key for the
resource name) is not under `src/`. Its exact value decides no claim. -/
def AppK8sKeyName : String := "app.kubernetes.io/name"

/-- Modelled from the spec: `common.AppK8sKeyComponent` (label key for the
component) is not under `src/`. Its exact value decides no claim. -/
def AppK8sKeyComponent : String := "app.kubernetes.io/component"

/-- Modelled from the spec: `common.StatefulSetK8sKeyPodName` is not under
`src/`. Its exact value decides no claim. -/
def StatefulSetK8sKeyPodName : String := "statefulset.kubernetes.io/pod-name"

/-- Modelled from the spec: `common.ArgoCDRedisServerTLSSecretName` is not
under `src/`; a fixed secret name. Its exact value decides no claim. -/
def ArgoCDRedisServerTLSSecretName : String := "argocd-operator-redis-tls"

/-- Modelled from the spec: `common.ArgoCDRedisHAConfigMapName` is not under
`src/`; the fixed name of the redis HA configmap ("a fixed suffix" name per
the spec's data model). Its exact value decides no claim. -/
def ArgoCDRedisHAConfigMapName : String := "argocd-redis-ha-configmap"

/-- Modelled from the spec: `common.ArgoCDDefaultRedisHAReplicas` is not
under `src/`. The spec's scenario fixes the replica count at 3
("replica count 3 → expect 3 indexed peer services"). -/
def ArgoCDDefaultRedisHAReplicas : Nat := 3

/-- Modelled from the spec: `common.ArgoCDDefaultRedisPort` is not under
`src/`. Its exact value decides no claim. -/
def ArgoCDDefaultRedisPort : Int := 6379

/-- Modelled from the spec: `common.ArgoCDDefaultRedisSentinelPort` is not
under `src/`. Its exact value decides no claim. -/
def ArgoCDDefaultRedisSentinelPort : Int := 26379

/-- Modelled from the spec: `common.DefaultLabels(name, instanceName,
component)` is not under `src/`; per §4.1 it produces a base label set from
those three inputs. The individual key values decide no claim. -/
def DefaultLabels (name instanceName component : String) : AList :=
  [(AppK8sKeyName, name),
   ("app.kubernetes.io/instance", instanceName),
   ("app.kubernetes.io/managed-by", instanceName),
   (AppK8sKeyComponent, component)]

/-- Modelled from the spec: `util.NameWithSuffix` is not under `src/`; per
the data model a child name is the instance name plus "a fixed suffix". -/
def NameWithSuffix (name suffix : String) : String := name ++ "-" ++ suffix

/-- `intstr.IntOrString` used for service target ports. -/
inductive IntOrStr
  | ofInt (i : Int)
  | ofString (s : String)
deriving DecidableEq, Repr

/-- One `corev1.ServicePort` entry. -/
structure ServicePort where
  name : String
  port : Int
  protocol : String
  targetPort : IntOrStr
deriving DecidableEq, Repr

/-- The fields of a `corev1.Service` the embedded code reads or writes.
`annotations` is an `Option` because Go distinguishes a nil map from an
empty one (`ensureAutoTLSAnnotation` explicitly initializes a nil map).
`hasOwnerRef` records whether `SetControllerReference` succeeded on it. -/
structure Service where
  name : String
  nspace : String
  labels : AList
  annotations : Option AList
  selector : AList
  ports : List ServicePort
  publishNotReadyAddresses : Bool
  serviceType : String
  hasOwnerRef : Bool
deriving DecidableEq, Repr

/-- The fields of the `ArgoCD` custom resource the embedded code reads.
`redisAutoTLS` is the provider string of `Spec.Redis.AutoTLS`. -/
structure ArgoCD where
  name : String
  nspace : String
  annotations : AList
  grafanaEnabled : Bool
  haEnabled : Bool
  redisAutoTLS : String
  serverServiceType : String
deriving DecidableEq, Repr

/-- Modelled from the spec: `ArgoCDRedisSpec.WantsAutoTLS` is not under
`src/`; per §4.3 auto-TLS is wanted when "an explicit provider string
[is] equal to a supported value", and `src/controllers/argocd/service.go`
compares the provider string against "openshift". -/
def redisWantsAutoTLS (cr : ArgoCD) : Bool := cr.redisAutoTLS == "openshift"

/-- `newService` from `src/unnamed/part_000`. -/
def newService (cr : ArgoCD) : Service :=
  { name := cr.name
    nspace := cr.nspace
    labels := DefaultLabels cr.name cr.name ""
    annotations := none
    selector := []
    ports := []
    publishNotReadyAddresses := false
    serviceType := ""
    hasOwnerRef := false }

/-- `newServiceWithName` from `src/unnamed/part_000`. -/
def newServiceWithName (name component : String) (cr : ArgoCD) : Service :=
  let svc := newService cr
  let svc := { svc with name := name }
  let lbls := svc.labels
  let lbls := insertA lbls AppK8sKeyName name
  let lbls := insertA lbls AppK8sKeyComponent component
  { svc with labels := lbls }

/-- `newServiceWithSuffix` from `src/unnamed/part_000`
(`fmt.Sprintf("%s-%s", cr.Name, suffix)`). -/
def newServiceWithSuffix (suffix component : String) (cr : ArgoCD) : Service :=
  newServiceWithName (cr.name ++ "-" ++ suffix) component cr

/-- `ensureAutoTLSAnnotation` from `src/unnamed/part_000`. The Go function
mutates `svc` and returns a boolean; here it returns the boolean together
with the resulting service. The global `IsRouteAPIAvailable()` (not under
`src/`) is passed in as the `route` argument. -/
def ensureAutoTLSAnnotation (route : Bool) (svc : Service) (secretName : String)
    (enabled : Bool) : Bool × Service :=
  let autoTLSAnnotationName := if route then ServiceBetaOpenshiftKeyCertSecret else ""
  let svc := if route then { svc with annotations := some (svc.annotations.getD []) } else svc
  let autoTLSAnnotationValue := if route then secretName else ""
  if autoTLSAnnotationName ≠ "" then
    let anns := svc.annotations.getD []
    match lookupA anns autoTLSAnnotationName with
    | some val =>
        if enabled then
          if val ≠ secretName then
            (true, { svc with
              annotations := some (insertA anns autoTLSAnnotationName autoTLSAnnotationValue) })
          else
            (false, svc)
        else
          (true, { svc with annotations := some (eraseA anns autoTLSAnnotationName) })
    | none =>
        if enabled then
          (true, { svc with
            annotations := some (insertA anns autoTLSAnnotationName autoTLSAnnotationValue) })
        else
          (false, svc)
  else
    (false, svc)

example :
    ensureAutoTLSAnnotation true
      { name := "s", nspace := "n", labels := [], annotations := none, selector := [],
        ports := [], publishNotReadyAddresses := false, serviceType := "",
        hasOwnerRef := false } "sec" true
    = (true,
      { name := "s", nspace := "n", labels := [],
        annotations := some [(ServiceBetaOpenshiftKeyCertSecret, "sec")], selector := [],
        ports := [], publishNotReadyAddresses := false, serviceType := "",
        hasOwnerRef := false }) := by decide

/-- Errors returned by the store and helper packages. `wrapped` stands for
`errors.Wrap(cause, ctx)` from `github.com/pkg/errors`. -/
inductive Err
  | notFound
  | other (msg : String)
  | wrapped (ctx : String) (cause : Err)
deriving DecidableEq, Repr

/-- `apierrors.IsNotFound`, looking through wrapping. -/
def isNotFound : Err → Bool
  | .notFound => true
  | .other _ => false
  | .wrapped _ cause => isNotFound cause

/-- One store write issued by a service reconciler
(`r.Client.Create` / `r.Client.Update` / `r.Client.Delete`). -/
inductive Act
  | create (svc : Service)
  | update (svc : Service)
  | delete (nspace name : String)
deriving DecidableEq, Repr

/-- Whether an action is a delete. -/
def Act.isDel : Act → Bool
  | .delete _ _ => true
  | _ => false

/-- Whether an action is an update. -/
def Act.isUpd : Act → Bool
  | .update _ => true
  | _ => false

/-- Environment of one service-reconciler pass: the live store plus the
outcomes of the external collaborators. `routeAPIAvailable` models the
global `IsRouteAPIAvailable()`; `ownerRefErr` the result of
`controllerutil.SetControllerReference`; the `...Err` fields let the
store's create/update/delete calls fail. -/
structure Env where
  store : List Service
  routeAPIAvailable : Bool
  ownerRefErr : Option Err
  createErr : Option Err
  updateErr : Option Err
  deleteErr : Option Err
deriving Repr

/-- The store lookup behind `util.IsObjectFound`: a get by namespace/name
that also yields the live object. -/
def findSvc (store : List Service) (nspace name : String) : Option Service :=
  store.find? (fun s => s.nspace == nspace && s.name == name)

/-- Store delete primitive: removes the object with the given key. -/
def deleteSvc (store : List Service) (nspace name : String) : List Service :=
  store.filter (fun s => !(s.nspace == nspace && s.name == name))

/-- Store create primitive. -/
def createSvc (store : List Service) (svc : Service) : List Service :=
  store ++ [svc]

/-- Store update primitive: replaces the object with the same key. -/
def updateSvc (store : List Service) (svc : Service) : List Service :=
  store.map (fun s => if s.nspace == svc.nspace && s.name == svc.name then svc else s)

/-- Result of one reconciler pass: the Go error result, the store after the
pass, and the log of store writes issued during the pass. -/
structure RRes where
  res : Option Err
  store : List Service
  log : List Act
deriving Repr

/-- `reconcileGrafanaService` from `src/unnamed/part_000`. -/
def reconcileGrafanaService (env : Env) (cr : ArgoCD) : RRes :=
  let svc := newServiceWithSuffix "grafana" "grafana" cr
  match findSvc env.store cr.nspace svc.name with
  | some _ =>
      if !cr.grafanaEnabled then
        -- Service exists but enabled flag has been set to false, delete the Service
        { res := env.deleteErr
          store := if env.deleteErr.isNone then deleteSvc env.store cr.nspace svc.name
                   else env.store
          log := [Act.delete cr.nspace svc.name] }
      else
        { res := none, store := env.store, log := [] } -- Service found, do nothing
  | none =>
      if !cr.grafanaEnabled then
        { res := none, store := env.store, log := [] } -- Grafana not enabled, do nothing
      else
        let svc := { svc with
          selector := [(AppK8sKeyName, NameWithSuffix cr.name "grafana")]
          ports := [{ name := "http", port := 80, protocol := "TCP",
                      targetPort := IntOrStr.ofInt 3000 }] }
        match env.ownerRefErr with
        | some e => { res := some e, store := env.store, log := [] }
        | none =>
            let svc := { svc with hasOwnerRef := true }
            { res := env.createErr
              store := if env.createErr.isNone then createSvc env.store svc else env.store
              log := [Act.create svc] }

/-- The fully built redis-ha-announce service for index `i`
(the body of the loop in `reconcileRedisHAAnnounceServices`). -/
def announceSvcDesired (cr : ArgoCD) (i : Nat) : Service :=
  let svc := newServiceWithSuffix ("redis-ha-announce-" ++ toString i) "redis" cr
  { svc with
    annotations := some [(ServiceAlphaK8sKeyTolerateUnreadyEndpoints, "true")]
    publishNotReadyAddresses := true
    selector := [(AppK8sKeyName, NameWithSuffix cr.name "redis-ha"),
                 (StatefulSetK8sKeyPodName,
                  NameWithSuffix cr.name ("redis-ha-server-" ++ toString i))]
    ports := [{ name := "server", port := ArgoCDDefaultRedisPort, protocol := "TCP",
                targetPort := IntOrStr.ofString "redis" },
              { name := "sentinel", port := ArgoCDDefaultRedisSentinelPort, protocol := "TCP",
                targetPort := IntOrStr.ofString "sentinel" }]}

/-- The loop of `reconcileRedisHAAnnounceServices` from `src/unnamed/part_000`,
recursing over the list of remaining indices. Every `return` of the Go loop
body ends the whole pass, so only the successful-create branch recurses. -/
def reconcileRedisHAAnnounceList (env : Env) (cr : ArgoCD) :
    List Nat → List Service → List Act → RRes
  | [], store, log => { res := none, store := store, log := log }
  | i :: rest, store, log =>
      let svc := newServiceWithSuffix ("redis-ha-announce-" ++ toString i) "redis" cr
      match findSvc store cr.nspace svc.name with
      | some _ =>
          if !cr.haEnabled then
            { res := env.deleteErr
              store := if env.deleteErr.isNone then deleteSvc store cr.nspace svc.name
                       else store
              log := log ++ [Act.delete cr.nspace svc.name] }
          else
            { res := none, store := store, log := log } -- Service found, do nothing
      | none =>
          if !cr.haEnabled then
            { res := none, store := store, log := log } -- HA not enabled, do nothing
          else
            let svc := announceSvcDesired cr i
            match env.ownerRefErr with
            | some e => { res := some e, store := store, log := log }
            | none =>
                let svc := { svc with hasOwnerRef := true }
                match env.createErr with
                | some e => { res := some e, store := store, log := log ++ [Act.create svc] }
                | none =>
                    reconcileRedisHAAnnounceList env cr rest
                      (createSvc store svc) (log ++ [Act.create svc])

/-- `reconcileRedisHAAnnounceServices` from `src/unnamed/part_000`:
the loop `for i := 0; i < common.ArgoCDDefaultRedisHAReplicas; i++`. -/
def reconcileRedisHAAnnounceServices (env : Env) (cr : ArgoCD) : RRes :=
  reconcileRedisHAAnnounceList env cr
    (List.range ArgoCDDefaultRedisHAReplicas) env.store []

/-- `reconcileRedisService` from `src/unnamed/part_000`. In the found
branch the auto-TLS drift check runs first and triggers an update; the
HA-variant delete check runs only when no drift was detected. -/
def reconcileRedisService (env : Env) (cr : ArgoCD) : RRes :=
  let svc := newServiceWithSuffix "redis" "redis" cr
  match findSvc env.store cr.nspace svc.name with
  | some live =>
      let step := ensureAutoTLSAnnotation env.routeAPIAvailable live
        ArgoCDRedisServerTLSSecretName (redisWantsAutoTLS cr)
      if step.1 then
        { res := env.updateErr
          store := if env.updateErr.isNone then updateSvc env.store step.2 else env.store
          log := [Act.update step.2] }
      else if cr.haEnabled then
        { res := env.deleteErr
          store := if env.deleteErr.isNone then deleteSvc env.store cr.nspace svc.name
                   else env.store
          log := [Act.delete cr.nspace svc.name] }
      else
        { res := none, store := env.store, log := [] } -- Service found, do nothing
  | none =>
      if cr.haEnabled then
        { res := none, store := env.store, log := [] } -- HA enabled, do nothing
      else
        let svc := ( ensureAutoTLSAnnotation env.routeAPIAvailable svc
          ArgoCDRedisServerTLSSecretName (redisWantsAutoTLS cr)).2
        let svc := { svc with
          selector := [(AppK8sKeyName, NameWithSuffix cr.name "redis")]
          ports := [{ name := "tcp-redis", port := ArgoCDDefaultRedisPort, protocol := "TCP",
                      targetPort := IntOrStr.ofInt ArgoCDDefaultRedisPort }] }
        match env.ownerRefErr with
        | some e => { res := some e, store := env.store, log := [] }
        | none =>
            let svc := { svc with hasOwnerRef := true }
            { res := env.createErr
              store := if env.createErr.isNone then createSvc env.store svc else env.store
              log := [Act.create svc] }

/-- `reconcileRedisHAProxyService` from `src/unnamed/part_000`. In the
found branch the HA-variant delete check runs first; the auto-TLS drift
check runs only when HA is still enabled. -/
def reconcileRedisHAProxyService (env : Env) (cr : ArgoCD) : RRes :=
  let svc := newServiceWithSuffix "redis-ha-haproxy" "redis" cr
  match findSvc env.store cr.nspace svc.name with
  | some live =>
      if !cr.haEnabled then
        { res := env.deleteErr
          store := if env.deleteErr.isNone then deleteSvc env.store cr.nspace svc.name
                   else env.store
          log := [Act.delete cr.nspace svc.name] }
      else
        let step := ensureAutoTLSAnnotation env.routeAPIAvailable live
          ArgoCDRedisServerTLSSecretName (redisWantsAutoTLS cr)
        if step.1 then
          { res := env.updateErr
            store := if env.updateErr.isNone then updateSvc env.store step.2 else env.store
            log := [Act.update step.2] }
        else
          { res := none, store := env.store, log := [] } -- Service found, do nothing
  | none =>
      if !cr.haEnabled then
        { res := none, store := env.store, log := [] } -- HA not enabled, do nothing
      else
        let svc := ( ensureAutoTLSAnnotation env.routeAPIAvailable svc
          ArgoCDRedisServerTLSSecretName (redisWantsAutoTLS cr)).2
        let svc := { svc with
          selector := [(AppK8sKeyName, NameWithSuffix cr.name "redis-ha-haproxy")]
          ports := [{ name := "haproxy", port := ArgoCDDefaultRedisPort, protocol := "TCP",
                      targetPort := IntOrStr.ofString "redis" }] }
        match env.ownerRefErr with
        | some e => { res := some e, store := env.store, log := [] }
        | none =>
            let svc := { svc with hasOwnerRef := true }
            { res := env.createErr
              store := if env.createErr.isNone then createSvc env.store svc else env.store
              log := [Act.create svc] }

/-- The fields of a `corev1.ConfigMap` the embedded code reads or writes. -/
structure ConfigMap where
  name : String
  nspace : String
  labels : AList
  annotations : AList
  data : AList
  hasOwnerRef : Bool
deriving DecidableEq, Repr

/-- One store write issued by a configmap reconciler. -/
inductive CMAct
  | create (cm : ConfigMap)
  | delete (name nspace : String)
deriving DecidableEq, Repr

/-- Whether a configmap action is a create. -/
def CMAct.isCreate : CMAct → Bool
  | .create _ => true
  | _ => false

/-- Environment of one redis configmap-reconciler pass. `nsResult` is the
outcome of `cluster.GetNamespace`: an error, or whether the namespace
carries a `DeletionTimestamp`. `requestErr` is the outcome of
`workloads.RequestConfigMap`'s mutations; the `cfg...` strings are the
values of the `rr.Get...` config getters; the remaining fields are the
outcomes of the store and owner-reference collaborators. -/
structure CMEnv where
  store : List ConfigMap
  nsResult : Except Err Bool
  requestErr : Option Err
  getErr : Option Err
  deleteErr : Option Err
  createErr : Option Err
  ownerRefErr : Option Err
  cfgHAProxy : String
  cfgHAProxyScript : String
  cfgInit : String
  cfgRedisConf : String
  cfgSentinelConf : String
deriving Repr

/-- The `ArgoCD` instance fields the configmap reconciler reads
(`rr.Instance`). -/
structure Instance where
  name : String
  nspace : String
  annotations : AList
deriving DecidableEq, Repr

/-- Modelled from the spec: `argoutil.GenerateUniqueResourceName` is not
under `src/`; per §4.1 `deterministicName` is a pure function of
(instance name, instance namespace, component). -/
def GenerateUniqueResourceName (instanceName instanceNamespace component : String) : String :=
  instanceName ++ "-" ++ instanceNamespace ++ "-" ++ component

/-- Modelled from the spec: the package-global `resourceLabels` of the
redis reconciler is not under `src/`; per §4.1 it is the default label
set computed from the derived resource name. -/
def redisResourceLabels (inst : Instance) : AList :=
  DefaultLabels (GenerateUniqueResourceName inst.name inst.nspace "redis") inst.name "redis"

/-- Store lookup for configmaps. -/
def findCM (store : List ConfigMap) (nspace name : String) : Option ConfigMap :=
  store.find? (fun c => c.nspace == nspace && c.name == name)

/-- Store delete primitive for configmaps. -/
def deleteCMStore (store : List ConfigMap) (nspace name : String) : List ConfigMap :=
  store.filter (fun c => !(c.nspace == nspace && c.name == name))

/-- Store create primitive for configmaps. -/
def createCMStore (store : List ConfigMap) (cm : ConfigMap) : List ConfigMap :=
  store ++ [cm]

/-- Modelled from the spec: `workloads.DeleteConfigMap` is not under
`src/`; per §6 the store exposes `delete(name, namespace)` that reports
`NotFoundError` when the object is missing. `env.deleteErr` injects a
failure of the underlying delete call. -/
def workloadsDeleteConfigMap (env : CMEnv) (store : List ConfigMap)
    (name nspace : String) : Except Err (List ConfigMap) :=
  if (findCM store nspace name).isSome then
    match env.deleteErr with
    | some e => .error e
    | none => .ok (deleteCMStore store nspace name)
  else
    .error .notFound

/-- Modelled from the spec: `workloads.GetConfigMap` is not under `src/`;
per §6 the store exposes `get(name, namespace) -> (object,
NotFoundError|other)`. `env.getErr` injects a transient failure. -/
def workloadsGetConfigMap (env : CMEnv) (store : List ConfigMap)
    (name nspace : String) : Except Err ConfigMap :=
  match env.getErr with
  | some e => .error e
  | none =>
      match findCM store nspace name with
      | some cm => .ok cm
      | none => .error .notFound

/-- `rr.deleteConfigMap` from `src/controllers/argocd/redis/configmap.go`:
"not found" is success, every other failure is wrapped with context.
Returns the error result, the store after the call, and the delete
attempt issued. -/
def deleteConfigMap (env : CMEnv) (store : List ConfigMap) (name nspace : String) :
    Option Err × List ConfigMap × List CMAct :=
  match workloadsDeleteConfigMap env store name nspace with
  | .error e =>
      if isNotFound e then
        (none, store, [CMAct.delete name nspace])
      else
        (some (.wrapped ("deleteConfigMap: failed to delete configMap " ++ name ++
          " in namespace " ++ nspace) e), store, [CMAct.delete name nspace])
  | .ok store2 => (none, store2, [CMAct.delete name nspace])

/-- The desired configmap built by the `ConfigMapRequest` at the top of
`reconcileHAConfigMap`. -/
def haCMDesired (env : CMEnv) (inst : Instance) : ConfigMap :=
  { name := ArgoCDRedisHAConfigMapName
    nspace := inst.nspace
    labels := redisResourceLabels inst
    annotations := inst.annotations
    data := [("haproxy.cfg", env.cfgHAProxy),
             ("haproxy_init.sh", env.cfgHAProxyScript),
             ("init.sh", env.cfgInit),
             ("redis.conf", env.cfgRedisConf),
             ("sentinel.Conf", env.cfgSentinelConf)]
    hasOwnerRef := false }

/-- Result of one configmap-reconciler pass. -/
structure CMRes where
  res : Option Err
  store : List ConfigMap
  log : List CMAct
deriving Repr

/-- `reconcileHAConfigMap` from `src/controllers/argocd/redis/configmap.go`.
When the namespace carries a deletion timestamp the pass deletes the
configmap and then continues into the get; an owner-reference failure is
only logged and the create still runs. -/
def reconcileHAConfigMap (env : CMEnv) (inst : Instance) : CMRes :=
  let desiredCM := haCMDesired env inst
  match env.requestErr with
  | some e =>
      { res := some (.wrapped ("reconcileHAConfigMap: failed to request configMap " ++
          desiredCM.name ++ " in namespace " ++ desiredCM.nspace) e)
        store := env.store, log := [] }
  | none =>
  match env.nsResult with
  | .error e =>
      { res := some (.wrapped ("reconcileHAConfigMap: failed to retrieve namespace " ++
          inst.nspace) e)
        store := env.store, log := [] }
  | .ok deleting =>
      let step :=
        if deleting then deleteConfigMap env env.store desiredCM.name desiredCM.nspace
        else (none, env.store, [])
      match step.1 with
      | some e =>
          { res := some (.wrapped ("reconcileHAConfigMap: failed to delete configMap " ++
              desiredCM.name ++ " in namespace " ++ desiredCM.nspace) e)
            store := step.2.1, log := step.2.2 }
      | none =>
          let store2 := step.2.1
          let log2 := step.2.2
          match workloadsGetConfigMap env store2 desiredCM.name desiredCM.nspace with
          | .ok _ => { res := none, store := store2, log := log2 }
          | .error e =>
              if !(isNotFound e) then
                { res := some (.wrapped
                    ("reconcileHAConfigMap: failed to retrieve configMap " ++
                      desiredCM.name ++ " in namespace " ++ desiredCM.nspace) e)
                  store := store2, log := log2 }
              else
                -- SetControllerReference failure is logged, not returned
                let cm := match env.ownerRefErr with
                  | some _ => desiredCM
                  | none => { desiredCM with hasOwnerRef := true }
                match env.createErr with
                | some e2 =>
                    { res := some (.wrapped
                        ("reconcileHAConfigMap: failed to create configMap " ++
                          desiredCM.name ++ " in namespace " ++ desiredCM.nspace) e2)
                      store := store2, log := log2 ++ [CMAct.create cm] }
                | none =>
                    { res := none, store := createCMStore store2 cm
                      log := log2 ++ [CMAct.create cm] }

/-- The fields of a `rbacv1.ClusterRoleBinding` the embedded code reads
(cluster-scoped, so no namespace). -/
structure ClusterRoleBinding where
  name : String
  labels : AList
  annotations : AList
deriving DecidableEq, Repr

/-- Environment of the cluster-role-binding helpers from
`src/pkg/common/defaults.go` (package `permissions`): the store plus
injected failures of the underlying get and delete calls. -/
structure CRBEnv where
  store : List ClusterRoleBinding
  getErr : Option Err
  deleteErr : Option Err
deriving Repr

/-- `GetClusterRoleBinding` from `src/pkg/common/defaults.go`: a get by
name against the cluster-scoped store; `env.getErr` injects a transient
failure of `client.Get`. -/
def GetClusterRoleBinding (env : CRBEnv) (name : String) : Except Err ClusterRoleBinding :=
  match env.getErr with
  | some e => .error e
  | none =>
      match env.store.find? (fun c => c.name == name) with
      | some crb => .ok crb
      | none => .error .notFound

/-- `DeleteClusterRoleBinding` from `src/pkg/common/defaults.go`: a lookup
first, with "not found" treated as success; then the delete, whose error
is returned unchanged. Returns the error result and the store after. -/
def DeleteClusterRoleBinding (env : CRBEnv) (name : String) :
    Option Err × List ClusterRoleBinding :=
  match GetClusterRoleBinding env name with
  | .error e =>
      if !(isNotFound e) then (some e, env.store)
      else (none, env.store)
  | .ok crb =>
      match env.deleteErr with
      | some e => (some e, env.store)
      | none => (none, env.store.filter (fun c => !(c.name == crb.name)))

/-- The five teardown steps of the applicationset component, in the order
`DeleteResources` runs them. -/
inductive DelStep
  | service
  | deployment
  | roleBinding
  | role
  | serviceAccount
deriving DecidableEq, Repr

/-- Outcomes of the five `Delete...` helper calls made by
`DeleteResources` (the helpers themselves are outside the given sources;
each outcome is the environment of the pass). -/
structure DeleteEnv where
  serviceRes : Option Err
  deploymentRes : Option Err
  roleBindingRes : Option Err
  roleRes : Option Err
  serviceAccountRes : Option Err
deriving DecidableEq, Repr

/-- `DeleteResources` from
`src/controllers/argocd/applicationset/applicationset.go`: all five
deletes are attempted unconditionally; each failure overwrites
`deletionError`, which is returned at the end. The second component is
the list of delete attempts made. -/
def DeleteResources (env : DeleteEnv) : Option Err × List DelStep :=
  let deletionError : Option Err := none
  let deletionError := match env.serviceRes with
    | some e => some e
    | none => deletionError
  let deletionError := match env.deploymentRes with
    | some e => some e
    | none => deletionError
  let deletionError := match env.roleBindingRes with
    | some e => some e
    | none => deletionError
  let deletionError := match env.roleRes with
    | some e => some e
    | none => deletionError
  let deletionError := match env.serviceAccountRes with
    | some e => some e
    | none => deletionError
  (deletionError,
   [DelStep.service, DelStep.deployment, DelStep.roleBinding,
    DelStep.role, DelStep.serviceAccount])

/-! Concrete fixtures used to instantiate the theorems below. -/

/-- A service whose annotations map is nil. -/
def svcNilAnn : Service :=
  { name := "s", nspace := "n", labels := [], annotations := none,
    selector := [], ports := [], publishNotReadyAddresses := false,
    serviceType := "", hasOwnerRef := false }

/-- An instance with Grafana enabled and everything else off. -/
def crGrafanaOn : ArgoCD :=
  { name := "demo", nspace := "ns1", annotations := [],
    grafanaEnabled := true, haEnabled := false, redisAutoTLS := "",
    serverServiceType := "" }

/-- An instance with HA disabled. -/
def crHADisabled : ArgoCD :=
  { name := "demo", nspace := "ns1", annotations := [],
    grafanaEnabled := false, haEnabled := false, redisAutoTLS := "",
    serverServiceType := "" }

/-- An instance with HA enabled that wants auto-TLS on redis. -/
def crRedisHA : ArgoCD :=
  { name := "demo", nspace := "ns1", annotations := [],
    grafanaEnabled := false, haEnabled := true, redisAutoTLS := "openshift",
    serverServiceType := "" }

/-- An environment with an empty store and all collaborators succeeding. -/
def envEmpty : Env :=
  { store := [], routeAPIAvailable := false, ownerRefErr := none,
    createErr := none, updateErr := none, deleteErr := none }

/-- All three indexed announce services live in the store. -/
def envAnnounceAll : Env :=
  { envEmpty with
    store := [announceSvcDesired crHADisabled 0, announceSvcDesired crHADisabled 1,
              announceSvcDesired crHADisabled 2] }

/-- Only the indexed announce services 1 and 2 live in the store
(the state after index 0 has already been deleted). -/
def envAnnounceRest : Env :=
  { envEmpty with
    store := [announceSvcDesired crHADisabled 1, announceSvcDesired crHADisabled 2] }

/-- The single-instance redis service live in the store, with the Route
API available (so the auto-TLS annotation on it drifts from desired). -/
def envRedisDrift : Env :=
  { envEmpty with
    store := [newServiceWithSuffix "redis" "redis" crRedisHA]
    routeAPIAvailable := true }

/-- An empty store with a failing owner-reference attachment. -/
def envGOwnerFail : Env :=
  { envEmpty with ownerRefErr := some (.other "boom") }

/-- The instance of the configmap fixtures. -/
def instDemo : Instance := { name := "demo", nspace := "ns1", annotations := [] }

/-- Configmap environment base: empty store, everything succeeding,
namespace not marked for deletion. -/
def cmEnvBase : CMEnv :=
  { store := [], nsResult := .ok false, requestErr := none,
    getErr := none, deleteErr := none, createErr := none, ownerRefErr := none,
    cfgHAProxy := "", cfgHAProxyScript := "", cfgInit := "", cfgRedisConf := "",
    cfgSentinelConf := "" }

/-- The namespace is marked for deletion and the managed configmap exists. -/
def envNSDeleting : CMEnv :=
  { cmEnvBase with store := [haCMDesired cmEnvBase instDemo], nsResult := .ok true }

/-- The managed configmap exists, and the store's delete call fails. -/
def envCMDelFail : CMEnv :=
  { cmEnvBase with
    store := [haCMDesired cmEnvBase instDemo]
    deleteErr := some (.other "boom") }

/-- Configmap environment with a failing owner-reference attachment. -/
def envCMOwnerFail : CMEnv :=
  { cmEnvBase with ownerRefErr := some (.other "boom") }

/-- Cluster-role-binding environment whose store is empty. -/
def crbEnvEmpty : CRBEnv := { store := [], getErr := none, deleteErr := none }

/-- Teardown environment in which only the role-binding delete fails. -/
def delEnvRBFail : DeleteEnv :=
  { serviceRes := none, deploymentRes := none,
    roleBindingRes := some (.other "boom"), roleRes := none,
    serviceAccountRes := none }

/-! Helper lemmas about the association-list operations. -/

theorem lookupA_insertA_self (m : AList) (k v : String) :
    lookupA (insertA m k v) k = some v := by
  induction m with
  | nil => simp [insertA, lookupA]
  | cons hd tl ih =>
      obtain ⟨k2, v2⟩ := hd
      by_cases h : k2 = k
      · simp [insertA, lookupA, h]
      · simp [insertA, lookupA, h, ih]

theorem lookupA_eraseA_self (m : AList) (k : String) :
    lookupA (eraseA m k) k = none := by
  induction m with
  | nil => simp [eraseA, lookupA]
  | cons hd tl ih =>
      obtain ⟨k2, v2⟩ := hd
      by_cases h : k2 = k
      · simp [eraseA, h, ih]
      · simp [eraseA, lookupA, h, ih]

/-- The deterministic name of the indexed redis-ha-announce service. -/
def announceName (cr : ArgoCD) (i : Nat) : String :=
  cr.name ++ "-" ++ ("redis-ha-announce-" ++ toString i)

/-! Claim theorems. -/

theorem newServiceWithSuffix_name (suffix component : String) (cr : ArgoCD) :
    (newServiceWithSuffix suffix component cr).name = cr.name ++ "-" ++ suffix := rfl

/-- C10: whenever the Route API is unavailable, `ensureAutoTLSAnnotation`
is a total no-op: it returns false and leaves the service unchanged, even
when `enabled` is true, so auto-TLS is never requested on such clusters. -/
theorem ensureAutoTLSAnnotation_no_route_noop (svc : Service) (secretName : String)
    (enabled : Bool) :
    ensureAutoTLSAnnotation false svc secretName enabled = (false, svc) := by
  simp [ ensureAutoTLSAnnotation]

/-- C4 counterexample: the toggle-mutator contract fails as stated. With
the Route API available, a nil-annotations service and `enabled = false`,
the call returns false yet mutates the service (the nil map is
initialized to an empty one); with the Route API unavailable and
`enabled = true`, the key is absent yet the call returns false instead of
setting it. -/
theorem ensureAutoTLS_toggle_contract_refuted :
    (( ensureAutoTLSAnnotation true svcNilAnn "sec" false).1 = false ∧
      ( ensureAutoTLSAnnotation true svcNilAnn "sec" false).2 ≠ svcNilAnn) ∧
    (( ensureAutoTLSAnnotation false svcNilAnn "sec" true).1 = false ∧
      ( ensureAutoTLSAnnotation false svcNilAnn "sec" true).2 = svcNilAnn) := by
  decide

/-- C4 amended: the toggle-mutator contract holds relative to the Route
API gate and the nil-map initialization. When the Route API is
unavailable, the call returns false with the service unchanged. When it
is available: if enabled and the key is absent or holds another value, it
sets the key to the secret name and returns true; if enabled and the key
already holds the secret name, it returns false; if not enabled and the
key is present, it removes the key and returns true; if not enabled and
the key is absent, it returns false; in the no-change cases the
annotation entries are untouched but a nil annotations map has been
initialized to an empty one. -/
theorem ensureAutoTLSAnnotation_contract (route : Bool) (svc : Service)
    (secretName : String) (enabled : Bool) :
    (route = false → ensureAutoTLSAnnotation route svc secretName enabled = (false, svc)) ∧
    (route = true →
      (enabled = true →
        lookupA (svc.annotations.getD []) ServiceBetaOpenshiftKeyCertSecret ≠ some secretName →
        ensureAutoTLSAnnotation route svc secretName enabled
          = (true, { svc with annotations := some (insertA (svc.annotations.getD [])
              ServiceBetaOpenshiftKeyCertSecret secretName) })) ∧
      (enabled = true →
        lookupA (svc.annotations.getD []) ServiceBetaOpenshiftKeyCertSecret = some secretName →
        ensureAutoTLSAnnotation route svc secretName enabled
          = (false, { svc with annotations := some (svc.annotations.getD []) })) ∧
      (enabled = false →
        (lookupA (svc.annotations.getD []) ServiceBetaOpenshiftKeyCertSecret).isSome = true →
        ensureAutoTLSAnnotation route svc secretName enabled
          = (true, { svc with annotations := some (eraseA (svc.annotations.getD [])
              ServiceBetaOpenshiftKeyCertSecret) })) ∧
      (enabled = false →
        lookupA (svc.annotations.getD []) ServiceBetaOpenshiftKeyCertSecret = none →
        ensureAutoTLSAnnotation route svc secretName enabled
          = (false, { svc with annotations := some (svc.annotations.getD []) }))) := by
  have hne : ¬(ServiceBetaOpenshiftKeyCertSecret = "") := by decide
  constructor
  · intro hr
    subst hr
    simp [ ensureAutoTLSAnnotation]
  · intro hr
    subst hr
    refine ⟨?_, ?_, ?_, ?_⟩
    · intro he hdrift
      subst he
      cases h : lookupA (svc.annotations.getD []) ServiceBetaOpenshiftKeyCertSecret with
      | none => simp [ ensureAutoTLSAnnotation, hne, h]
      | some val =>
          have hval : ¬(val = secretName) := by
            intro hv
            exact hdrift (by rw [h, hv])
          simp [ ensureAutoTLSAnnotation, hne, h, hval]
    · intro he hsame
      subst he
      simp [ ensureAutoTLSAnnotation, hne, hsame]
    · intro he hpresent
      subst he
      cases h : lookupA (svc.annotations.getD []) ServiceBetaOpenshiftKeyCertSecret with
      | none => rw [h] at hpresent; simp at hpresent
      | some val => simp [ ensureAutoTLSAnnotation, hne, h]
    · intro he habsent
      subst he
      simp [ ensureAutoTLSAnnotation, hne, habsent]

/-- C4 witness: the Route-API-unavailable conjunct of the contract,
applied at a concrete service. -/
theorem ensureAutoTLSAnnotation_contract_witness :
    ensureAutoTLSAnnotation false svcNilAnn "sec" true = (false, svcNilAnn) :=
  ( ensureAutoTLSAnnotation_contract false svcNilAnn "sec" true).1 rfl

/-- C5: `ensureAutoTLSAnnotation` is idempotent: a second call with the
same arguments returns false and leaves the service exactly as the first
call left it. -/
theorem ensureAutoTLSAnnotation_idempotent (route : Bool) (svc : Service)
    (secretName : String) (enabled : Bool) :
    ensureAutoTLSAnnotation route
        ( ensureAutoTLSAnnotation route svc secretName enabled).2 secretName enabled
      = (false, ( ensureAutoTLSAnnotation route svc secretName enabled).2) := by
  have hne : ¬(ServiceBetaOpenshiftKeyCertSecret = "") := by decide
  cases route with
  | false => simp [ ensureAutoTLSAnnotation]
  | true =>
      cases henb : enabled with
      | true =>
          cases h : lookupA (svc.annotations.getD []) ServiceBetaOpenshiftKeyCertSecret with
          | none =>
              simp [ ensureAutoTLSAnnotation, hne, h, lookupA_insertA_self]
          | some val =>
              by_cases hval : val = secretName
              · subst hval
                simp [ ensureAutoTLSAnnotation, hne, h]
              · simp [ ensureAutoTLSAnnotation, hne, h, hval, lookupA_insertA_self]
      | false =>
          cases h : lookupA (svc.annotations.getD []) ServiceBetaOpenshiftKeyCertSecret with
          | none =>
              simp [ ensureAutoTLSAnnotation, hne, h]
          | some val =>
              simp [ ensureAutoTLSAnnotation, hne, h, lookupA_eraseA_self]

/-- C1: one pass of the Grafana service reconciler follows the
converge-one-resource algorithm. If the service exists and Grafana is
disabled, the pass issues exactly one delete and no other write; if it
exists and Grafana is enabled, it issues no store write; if it is absent
and Grafana is disabled, it issues no store action; if it is absent and
Grafana is enabled (and the owner-reference attachment succeeds), it
attaches the owner reference and issues exactly one create. -/
theorem reconcileGrafanaService_converge_one (env : Env) (cr : ArgoCD) :
    ((findSvc env.store cr.nspace (cr.name ++ "-" ++ "grafana")).isSome = true →
      cr.grafanaEnabled = false →
      (reconcileGrafanaService env cr).log
        = [Act.delete cr.nspace (cr.name ++ "-" ++ "grafana")]) ∧
    ((findSvc env.store cr.nspace (cr.name ++ "-" ++ "grafana")).isSome = true →
      cr.grafanaEnabled = true →
      (reconcileGrafanaService env cr).log = [] ∧
      (reconcileGrafanaService env cr).store = env.store) ∧
    (findSvc env.store cr.nspace (cr.name ++ "-" ++ "grafana") = none →
      cr.grafanaEnabled = false →
      (reconcileGrafanaService env cr).log = [] ∧
      (reconcileGrafanaService env cr).store = env.store) ∧
    (findSvc env.store cr.nspace (cr.name ++ "-" ++ "grafana") = none →
      cr.grafanaEnabled = true → env.ownerRefErr = none →
      ∃ svc, (reconcileGrafanaService env cr).log = [Act.create svc] ∧
        svc.hasOwnerRef = true ∧ svc.name = cr.name ++ "-" ++ "grafana") := by
  refine ⟨?_, ?_, ?_, ?_⟩
  · intro hf hg
    obtain ⟨live, hlive⟩ := Option.isSome_iff_exists.mp hf
    simp [reconcileGrafanaService, newServiceWithSuffix_name, hlive, hg]
  · intro hf hg
    obtain ⟨live, hlive⟩ := Option.isSome_iff_exists.mp hf
    simp [reconcileGrafanaService, newServiceWithSuffix_name, hlive, hg]
  · intro hf hg
    simp [reconcileGrafanaService, newServiceWithSuffix_name, hf, hg]
  · intro hf hg ho
    simp only [reconcileGrafanaService, newServiceWithSuffix_name, hf, hg, ho]
    exact ⟨_, rfl, rfl, rfl⟩

/-- C1 witness: the create path at a concrete instance with an empty
store, Grafana enabled and a succeeding owner-reference attachment. -/
theorem reconcileGrafanaService_converge_one_witness :
    ∃ svc, (reconcileGrafanaService envEmpty crGrafanaOn).log = [Act.create svc] ∧
      svc.hasOwnerRef = true ∧ svc.name = crGrafanaOn.name ++ "-" ++ "grafana" :=
  (reconcileGrafanaService_converge_one envEmpty crGrafanaOn).2.2.2 rfl rfl rfl

/-- C2 counterexample: with HA disabled and all three indexed
redis-ha-announce services in the store, a single invocation deletes only
the index-0 service and returns, leaving indices 1 and 2 in the store —
not "every one of the N indexed services". -/
theorem redisHAAnnounce_full_teardown_refuted :
    (reconcileRedisHAAnnounceServices envAnnounceAll crHADisabled).log
      = [Act.delete "ns1" "demo-redis-ha-announce-0"] ∧
    (reconcileRedisHAAnnounceServices envAnnounceAll crHADisabled).store.map
        (fun s => s.name)
      = ["demo-redis-ha-announce-1", "demo-redis-ha-announce-2"] := by
  decide

/-- C2 amended: with HA disabled, a single invocation of
`reconcileRedisHAAnnounceServices` deletes only the index-0 announce
service (when present) and returns immediately, leaving the remaining
indexed services in the store; and once index 0 is absent, a pass with HA
disabled returns at index 0 with no store action at all, so this
reconciler never deletes the higher-indexed services. -/
theorem redisHAAnnounce_deletes_only_first (env : Env) (cr : ArgoCD)
    (hha : cr.haEnabled = false) :
    ((findSvc env.store cr.nspace (announceName cr 0)).isSome = true →
      env.deleteErr = none →
      (reconcileRedisHAAnnounceServices env cr).log
        = [Act.delete cr.nspace (announceName cr 0)] ∧
      (reconcileRedisHAAnnounceServices env cr).store
        = deleteSvc env.store cr.nspace (announceName cr 0)) ∧
    (findSvc env.store cr.nspace (announceName cr 0) = none →
      (reconcileRedisHAAnnounceServices env cr).log = [] ∧
      (reconcileRedisHAAnnounceServices env cr).store = env.store ∧
      (reconcileRedisHAAnnounceServices env cr).res = none) := by
  have hrange : List.range ArgoCDDefaultRedisHAReplicas = [0, 1, 2] := rfl
  constructor
  · intro h0 hdel
    obtain ⟨live, hlive⟩ := Option.isSome_iff_exists.mp h0
    rw [announceName] at hlive
    constructor <;>
      simp [reconcileRedisHAAnnounceServices, hrange, reconcileRedisHAAnnounceList,
        newServiceWithSuffix_name, hlive, hha, hdel, announceName]
  · intro h0
    rw [announceName] at h0
    refine ⟨?_, ?_, ?_⟩ <;>
      simp [reconcileRedisHAAnnounceServices, hrange, reconcileRedisHAAnnounceList,
        newServiceWithSuffix_name, h0, hha]

/-- C2 amended witness: the single-delete half at the fixture with all
three announce services present, and the no-action half at the fixture in
which index 0 is already gone while indices 1 and 2 remain. -/
theorem redisHAAnnounce_deletes_only_first_witness :
    ((reconcileRedisHAAnnounceServices envAnnounceAll crHADisabled).log
        = [Act.delete crHADisabled.nspace (announceName crHADisabled 0)] ∧
      (reconcileRedisHAAnnounceServices envAnnounceAll crHADisabled).store
        = deleteSvc envAnnounceAll.store crHADisabled.nspace (announceName crHADisabled 0)) ∧
    ((reconcileRedisHAAnnounceServices envAnnounceRest crHADisabled).log = [] ∧
      (reconcileRedisHAAnnounceServices envAnnounceRest crHADisabled).store
        = envAnnounceRest.store ∧
      (reconcileRedisHAAnnounceServices envAnnounceRest crHADisabled).res = none) :=
  ⟨(redisHAAnnounce_deletes_only_first envAnnounceAll crHADisabled rfl).1 (by decide) rfl,
   (redisHAAnnounce_deletes_only_first envAnnounceRest crHADisabled rfl).2 (by decide)⟩

/-- C3 counterexample: the single-instance redis service exists while
`HA.Enabled` is true (wrong topology variant) and its auto-TLS annotation
drifts from desired; the pass writes an update and issues no delete,
so the topology-variant check does not precede the drift check there. -/
theorem redisService_variant_before_drift_refuted :
    (findSvc envRedisDrift.store "ns1" "demo-redis").isSome = true ∧
    crRedisHA.haEnabled = true ∧
    ((reconcileRedisService envRedisDrift crRedisHA).log.any Act.isDel) = false ∧
    ((reconcileRedisService envRedisDrift crRedisHA).log.any Act.isUpd) = true := by
  decide

/-- C3 amended: in `reconcileRedisService` the managed-field drift check
precedes the topology-variant check: a found single-instance redis
service whose auto-TLS annotation drifts is updated — not deleted — even
when `HA.Enabled` is true; the variant delete fires only when no drift
was detected. In `reconcileRedisHAProxyService` the variant check does
come first: a found proxy service with `HA.Enabled` false is deleted
without any update. -/
theorem redisService_drift_before_variant (env : Env) (cr : ArgoCD) (live : Service)
    (hfound : findSvc env.store cr.nspace (cr.name ++ "-" ++ "redis") = some live) :
    (( ensureAutoTLSAnnotation env.routeAPIAvailable live ArgoCDRedisServerTLSSecretName
        (redisWantsAutoTLS cr)).1 = true →
      (reconcileRedisService env cr).log
        = [Act.update ( ensureAutoTLSAnnotation env.routeAPIAvailable live
            ArgoCDRedisServerTLSSecretName (redisWantsAutoTLS cr)).2]) ∧
    (( ensureAutoTLSAnnotation env.routeAPIAvailable live ArgoCDRedisServerTLSSecretName
        (redisWantsAutoTLS cr)).1 = false → cr.haEnabled = true →
      (reconcileRedisService env cr).log
        = [Act.delete cr.nspace (cr.name ++ "-" ++ "redis")]) ∧
    (∀ liveP, cr.haEnabled = false →
      findSvc env.store cr.nspace (cr.name ++ "-" ++ "redis-ha-haproxy") = some liveP →
      (reconcileRedisHAProxyService env cr).log
        = [Act.delete cr.nspace (cr.name ++ "-" ++ "redis-ha-haproxy")]) := by
  refine ⟨?_, ?_, ?_⟩
  · intro hdrift
    simp [reconcileRedisService, newServiceWithSuffix_name, hfound, hdrift]
  · intro hdrift hha
    simp [reconcileRedisService, newServiceWithSuffix_name, hfound, hdrift, hha]
  · intro liveP hha hfoundP
    simp [reconcileRedisHAProxyService, newServiceWithSuffix_name, hfoundP, hha]

/-- C3 amended witness: the drifting-annotation conjunct at the concrete
fixture (redis service present, HA enabled, Route API available). -/
theorem redisService_drift_before_variant_witness :
    (reconcileRedisService envRedisDrift crRedisHA).log
      = [Act.update ( ensureAutoTLSAnnotation envRedisDrift.routeAPIAvailable
          (newServiceWithSuffix "redis" "redis" crRedisHA)
          ArgoCDRedisServerTLSSecretName (redisWantsAutoTLS crRedisHA)).2] :=
  (redisService_drift_before_variant envRedisDrift crRedisHA
    (newServiceWithSuffix "redis" "redis" crRedisHA) (by decide)).1 (by decide)

/-- C6: when exactly one of the five teardown deletes fails, DeleteResources
still attempts every delete (the attempt list always contains all five
steps, in order) and returns exactly the failing delete's error; the
succeeding deletes that run afterwards do not overwrite it. -/
theorem DeleteResources_single_failure (env : DeleteEnv) (e : Err)
    (h : env = { serviceRes := some e, deploymentRes := none, roleBindingRes := none,
                 roleRes := none, serviceAccountRes := none } ∨
         env = { serviceRes := none, deploymentRes := some e, roleBindingRes := none,
                 roleRes := none, serviceAccountRes := none } ∨
         env = { serviceRes := none, deploymentRes := none, roleBindingRes := some e,
                 roleRes := none, serviceAccountRes := none } ∨
         env = { serviceRes := none, deploymentRes := none, roleBindingRes := none,
                 roleRes := some e, serviceAccountRes := none } ∨
         env = { serviceRes := none, deploymentRes := none, roleBindingRes := none,
                 roleRes := none, serviceAccountRes := some e }) :
    DeleteResources env
      = (some e, [DelStep.service, DelStep.deployment, DelStep.roleBinding,
                  DelStep.role, DelStep.serviceAccount]) := by
  rcases h with h | h | h | h | h <;> subst h <;> rfl

/-- C6 witness: the role-binding delete fails while the others succeed. -/
theorem DeleteResources_single_failure_witness :
    DeleteResources delEnvRBFail
      = (some (Err.other "boom"),
         [DelStep.service, DelStep.deployment, DelStep.roleBinding,
          DelStep.role, DelStep.serviceAccount]) :=
  DeleteResources_single_failure delEnvRBFail (Err.other "boom")
    (Or.inr (Or.inr (Or.inl rfl)))

/-- C7: at the failing input — the instance's namespace marked for
deletion, the managed configmap present, every store call succeeding —
the pass force-deletes the configmap but then falls through to the
get/create path and recreates it in the same pass: the log ends with a
create and the configmap is back in the store afterwards, contradicting
the claim (and §4.6 of the spec) that create/update are skipped so the
resource is never recreated during namespace teardown. -/
theorem reconcileHAConfigMap_recreates_during_ns_deletion :
    (reconcileHAConfigMap envNSDeleting instDemo).log
      = [CMAct.delete ArgoCDRedisHAConfigMapName "ns1",
         CMAct.create { haCMDesired envNSDeleting instDemo with hasOwnerRef := true }] ∧
    (findCM (reconcileHAConfigMap envNSDeleting instDemo).store "ns1"
        ArgoCDRedisHAConfigMapName).isSome = true ∧
    (reconcileHAConfigMap envNSDeleting instDemo).res = none := by
  decide

/-- C8 counterexample: in the Grafana service reconciler the create path
is reached (service absent, Grafana enabled) and the owner-reference
attachment fails; the pass returns that error as its result and issues no
create — so the owner-reference error is propagated to the caller, not
logged-and-continued, refuting the claim for every reconcile pass. -/
theorem ownerRef_error_continuation_refuted :
    (reconcileGrafanaService envGOwnerFail crGrafanaOn).res = some (Err.other "boom") ∧
    (reconcileGrafanaService envGOwnerFail crGrafanaOn).log = [] := by
  decide

/-- C8 amended: the logged-and-continue policy for owner-reference
failures holds in the redis HA configmap reconciler — the pass still
creates the configmap (without the owner reference) and returns nil —
but not in the Grafana service reconciler, which returns the
owner-reference error to the caller and does not attempt the create. -/
theorem ownerRef_error_policy (cmenv : CMEnv) (inst : Instance) (env : Env)
    (cr : ArgoCD) (e e2 : Err) :
    (cmenv.requestErr = none → cmenv.nsResult = .ok false → cmenv.getErr = none →
      findCM cmenv.store inst.nspace ArgoCDRedisHAConfigMapName = none →
      cmenv.ownerRefErr = some e → cmenv.createErr = none →
      (reconcileHAConfigMap cmenv inst).res = none ∧
      (reconcileHAConfigMap cmenv inst).log = [CMAct.create (haCMDesired cmenv inst)] ∧
      (haCMDesired cmenv inst).hasOwnerRef = false) ∧
    (findSvc env.store cr.nspace (cr.name ++ "-" ++ "grafana") = none →
      cr.grafanaEnabled = true → env.ownerRefErr = some e2 →
      (reconcileGrafanaService env cr).res = some e2 ∧
      (reconcileGrafanaService env cr).log = []) := by
  constructor
  · intro hreq hns hget hfind ho hc
    refine ⟨?_, ?_, rfl⟩ <;>
      simp [reconcileHAConfigMap, workloadsGetConfigMap, haCMDesired, isNotFound,
        hreq, hns, hget, hfind, ho, hc]
  · intro hfind hg ho
    constructor <;>
      simp [reconcileGrafanaService, newServiceWithSuffix_name, hfind, hg, ho]

/-- C8 amended witness: both halves at concrete fixtures — the configmap
reconciler with a failing owner-reference attachment and an absent
configmap, and the Grafana reconciler with a failing attachment, an
absent service and Grafana enabled. -/
theorem ownerRef_error_policy_witness :
    ((reconcileHAConfigMap envCMOwnerFail instDemo).res = none ∧
      (reconcileHAConfigMap envCMOwnerFail instDemo).log
        = [CMAct.create (haCMDesired envCMOwnerFail instDemo)] ∧
      (haCMDesired envCMOwnerFail instDemo).hasOwnerRef = false) ∧
    ((reconcileGrafanaService envGOwnerFail crGrafanaOn).res = some (Err.other "boom") ∧
      (reconcileGrafanaService envGOwnerFail crGrafanaOn).log = []) :=
  ⟨(ownerRef_error_policy envCMOwnerFail instDemo envGOwnerFail crGrafanaOn
      (Err.other "boom") (Err.other "boom")).1 rfl rfl rfl rfl rfl rfl,
   (ownerRef_error_policy envCMOwnerFail instDemo envGOwnerFail crGrafanaOn
      (Err.other "boom") (Err.other "boom")).2 rfl rfl rfl⟩

/-- C9 counterexample: `deleteConfigMap` does not return a non-NotFound
failure unchanged — it wraps it with context. With the configmap present
and the store's delete call failing with `other "boom"`, the function
returns the wrapped error, which differs from the original. -/
theorem delete_error_unchanged_refuted :
    (deleteConfigMap envCMDelFail envCMDelFail.store ArgoCDRedisHAConfigMapName "ns1").1
      = some (Err.wrapped
          "deleteConfigMap: failed to delete configMap argocd-redis-ha-configmap in namespace ns1"
          (Err.other "boom")) ∧
    Err.wrapped
        "deleteConfigMap: failed to delete configMap argocd-redis-ha-configmap in namespace ns1"
        (Err.other "boom")
      ≠ Err.other "boom" := by
  decide

/-- C9 amended: deleting an absent child resource returns success in both
helpers — `DeleteClusterRoleBinding` returns nil when the lookup reports
NotFound, and `deleteConfigMap` returns nil when the delete reports
NotFound (also when the injected delete failure itself is a NotFound).
Non-NotFound failures are propagated: unchanged by
`DeleteClusterRoleBinding` (for both its lookup and its delete call),
wrapped with context by `deleteConfigMap`. -/
theorem delete_notfound_policy (cenv : CRBEnv) (name : String) (cmenv : CMEnv)
    (cmname cmns : String) (e : Err) :
    (cenv.getErr = none → cenv.store.find? (fun c => c.name == name) = none →
      (DeleteClusterRoleBinding cenv name).1 = none) ∧
    (cenv.getErr = some e → isNotFound e = false →
      (DeleteClusterRoleBinding cenv name).1 = some e) ∧
    (∀ crb, cenv.getErr = none →
      cenv.store.find? (fun c => c.name == name) = some crb →
      cenv.deleteErr = some e → (DeleteClusterRoleBinding cenv name).1 = some e) ∧
    (findCM cmenv.store cmns cmname = none →
      (deleteConfigMap cmenv cmenv.store cmname cmns).1 = none) ∧
    ((findCM cmenv.store cmns cmname).isSome = true → cmenv.deleteErr = some e →
      isNotFound e = false →
      (deleteConfigMap cmenv cmenv.store cmname cmns).1
        = some (Err.wrapped ("deleteConfigMap: failed to delete configMap " ++ cmname ++
            " in namespace " ++ cmns) e)) ∧
    ((findCM cmenv.store cmns cmname).isSome = true → cmenv.deleteErr = some e →
      isNotFound e = true →
      (deleteConfigMap cmenv cmenv.store cmname cmns).1 = none) := by
  refine ⟨?_, ?_, ?_, ?_, ?_, ?_⟩
  · intro hget hfind
    simp [DeleteClusterRoleBinding, GetClusterRoleBinding, hget, hfind, isNotFound]
  · intro hget hnf
    simp [DeleteClusterRoleBinding, GetClusterRoleBinding, hget, hnf]
  · intro crb hget hfind hdel
    simp [DeleteClusterRoleBinding, GetClusterRoleBinding, hget, hfind, hdel]
  · intro hfind
    simp [deleteConfigMap, workloadsDeleteConfigMap, hfind, isNotFound]
  · intro hfind hdel hnf
    simp [deleteConfigMap, workloadsDeleteConfigMap, hfind, hdel, hnf]
  · intro hfind hdel hnf
    simp [deleteConfigMap, workloadsDeleteConfigMap, hfind, hdel, hnf]

/-- C9 amended witness: the NotFound-is-success conjunct for
`DeleteClusterRoleBinding` at an empty store, and the wrapping conjunct
for `deleteConfigMap` at the concrete failing fixture. -/
theorem delete_notfound_policy_witness :
    (DeleteClusterRoleBinding crbEnvEmpty "crb").1 = none ∧
    (deleteConfigMap envCMDelFail envCMDelFail.store ArgoCDRedisHAConfigMapName "ns1").1
      = some (Err.wrapped ("deleteConfigMap: failed to delete configMap " ++
          ArgoCDRedisHAConfigMapName ++ " in namespace " ++ "ns1") (Err.other "boom")) :=
  ⟨(delete_notfound_policy crbEnvEmpty "crb" envCMDelFail ArgoCDRedisHAConfigMapName "ns1"
      (Err.other "boom")).1 rfl rfl,
   (delete_notfound_policy crbEnvEmpty "crb" envCMDelFail ArgoCDRedisHAConfigMapName "ns1"
      (Err.other "boom")).2.2.2.2.1 (by decide) rfl rfl⟩

end ArgoCDVee
